import Mathlib

/-!
Verification of the streaming voice-chat front ends: a shallow embedding of
the audio playback queues, the reconnecting WebSocket transports, the UI
conversation view and the call orchestrator, with theorems settling the
frozen behavioural claims about them.

The embedding follows the JavaScript sources:
* `AudioPlayer`  — `openai + elevenlabs + pipecat/assets/js/audio-player.js`
* `AudioManager` — `openai + pipecat + streaming/src/frontend/js/websocket-manager.js`
* `WebSocketClient` — `src/unnamed/part_002` (identical reconnect logic in
  `openai/assets/js/websocket-client.js`)
* `WebSocketManager` — `openai + pipecat + streaming/src/frontend/js/websocket-manager.js`
* `UIManager` — `src/unnamed/part_001`
* `SpeechRecognitionManager` — `src/unnamed/part_000`
* `VoiceCall` — `openai + pipecat + streaming/src/frontend/js/voice-call.js`

The browser is single-threaded and event driven, so each component is
modelled as a state type plus one transition function per event-handler
body; a run is a left fold of the transition function over an event list.
Ghost fields (`enqueued`, `started`, `queueStarted`, `startedVolumes`,
`schedules`) log externally observable actions without influencing any
transition.
-/

namespace VoiceDemo

/-! ### AudioPlayer (audio-player.js)

State of the streaming chunk queue.  A chunk is identified by the value of
`currentChunkIndex` at the moment `playAudioChunk` pushed it.  `playing`
lists chunks whose `audio.play()` was called and whose `onended`/`onerror`
has not fired yet (each chunk is a separate `Audio` element, so several can
be playing at once).  `pendingTimers` counts scheduled
`setTimeout(() => playNextChunk(), 10)` callbacks that have not fired.
`enqueued` and `started` are ghost logs of push order and play-start order.
-/

structure APState where
  isMuted : Bool
  isStreaming : Bool
  currentChunkIndex : Nat
  audioQueue : List Nat
  playing : List Nat
  pendingTimers : Nat
  enqueued : List Nat
  started : List Nat
  deriving DecidableEq, Repr

/-- The state right after `initializeStreamingAudio()` on a fresh, unmuted
`AudioPlayer`: empty queue, streaming flag set, chunk counter zero. -/
def apStreamingInit : APState :=
  ⟨false, true, 0, [], [], 0, [], []⟩

/-- `AudioPlayer.playNextChunk`: when the queue is non-empty and the player
is not muted, shift the head chunk and call `play()` on it. -/
def apPlayNextChunk (s : APState) : APState :=
  match s.audioQueue with
  | [] => s
  | h :: t =>
      if s.isMuted then s
      else { s with audioQueue := t, playing := s.playing ++ [h],
                    started := s.started ++ [h] }

/-- The push step of `AudioPlayer.playAudioChunk`: decode the chunk and
push it onto `audioQueue` with index `currentChunkIndex++`. -/
def apPushChunk (s : APState) : APState :=
  { s with currentChunkIndex := s.currentChunkIndex + 1,
           audioQueue := s.audioQueue ++ [s.currentChunkIndex],
           enqueued := s.enqueued ++ [s.currentChunkIndex] }

/-- `AudioPlayer.playAudioChunk`: when unmuted and streaming, push the
chunk, and if the queue length just became `1` call `playNextChunk`. -/
def apPlayAudioChunk (s : APState) : APState :=
  if s.isMuted = true ∨ s.isStreaming = false then s
  else if (apPushChunk s).audioQueue.length = 1 then apPlayNextChunk (apPushChunk s)
  else apPushChunk s

/-- Revoking the object URL of a finished or failed chunk `i`: it leaves
the `playing` set. -/
def apRelease (i : Nat) (s : APState) : APState :=
  { s with playing := s.playing.erase i }

/-- The `onended` handler of chunk `i`: revoke its URL, and when the queue
is non-empty or streaming is still on, schedule `playNextChunk` after a
10 ms timeout. -/
def apEnded (i : Nat) (s : APState) : APState :=
  if i ∈ s.playing then
    if (apRelease i s).audioQueue.length > 0 ∨ (apRelease i s).isStreaming = true then
      { apRelease i s with pendingTimers := (apRelease i s).pendingTimers + 1 }
    else apRelease i s
  else s

/-- The `onerror` handler of chunk `i`: revoke its URL, and when the queue
is non-empty or streaming is still on, call `playNextChunk` directly. -/
def apError (i : Nat) (s : APState) : APState :=
  if i ∈ s.playing then
    if (apRelease i s).audioQueue.length > 0 ∨ (apRelease i s).isStreaming = true then
      apPlayNextChunk (apRelease i s)
    else apRelease i s
  else s

/-- One scheduled `setTimeout(() => playNextChunk(), 10)` callback fires. -/
def apTimerFire (s : APState) : APState :=
  if s.pendingTimers > 0 then
    apPlayNextChunk { s with pendingTimers := s.pendingTimers - 1 }
  else s

/-- `AudioPlayer.finalizeStreamingAudio`: clear the streaming flag (the
delayed array cleanup touches only `audioChunks`/`currentChunkIndex`). -/
def apFinalize (s : APState) : APState :=
  { s with isStreaming := false }

/-- `AudioPlayer.toggleMute`. -/
def apToggleMute (s : APState) : APState :=
  { s with isMuted := !s.isMuted }

/-- Events that can reach an `AudioPlayer` during one streaming session:
chunk arrival, per-chunk `ended`/`error` callbacks, a pending
inter-fragment timer firing, `finalizeStreamingAudio`, and mute toggles. -/
inductive APEvent where
  | enqueue : APEvent
  | ended : Nat → APEvent
  | error : Nat → APEvent
  | timerFire : APEvent
  | finalize : APEvent
  | toggleMute : APEvent
  deriving DecidableEq, Repr

def apStep (s : APState) : APEvent → APState
  | APEvent.enqueue => apPlayAudioChunk s
  | APEvent.ended i => apEnded i s
  | APEvent.error i => apError i s
  | APEvent.timerFire => apTimerFire s
  | APEvent.finalize => apFinalize s
  | APEvent.toggleMute => apToggleMute s

/-- A run of the `AudioPlayer` from a freshly initialised streaming
session. -/
def runAP (es : List APEvent) : APState :=
  es.foldl apStep apStreamingInit

/-! ### AudioManager (websocket-manager.js, streaming variant)

Single playing slot `currentAudio`, FIFO `audioQueue`, clamped `volume`.
Fragments are identified by `nextIdx` at enqueue/play time.  Ghost logs:
`enqueued` (push order into the queue), `queueStarted` (play-start order of
queued fragments), `started` (play-start order of all fragments, including
the direct `playAudio` path), `startedVolumes` (the `volume` assigned to
each created `Audio` element at start). -/

structure AMState where
  currentAudio : Option Nat
  audioQueue : List Nat
  isPlaying : Bool
  volume : ℚ
  nextIdx : Nat
  enqueued : List Nat
  queueStarted : List Nat
  started : List Nat
  startedVolumes : List ℚ
  deriving DecidableEq, Repr

/-- Fresh `AudioManager`: no current audio, empty queue, volume `1.0`. -/
def amInit : AMState :=
  ⟨none, [], false, 1, 0, [], [], [], []⟩

/-- The tail of `AudioManager.playAudio(i)`: stop the current audio, create
a new `Audio` element for fragment `i`, set its volume to `this.volume`,
mark playing and start playback. -/
def amStartPlayback (i : Nat) (s : AMState) : AMState :=
  { s with currentAudio := some i, isPlaying := true,
           started := s.started ++ [i],
           startedVolumes := s.startedVolumes ++ [s.volume] }

/-- `AudioManager.playNextInQueue`: return unless the queue is non-empty
and nothing is playing; otherwise shift the head and play it. -/
def amPlayNextInQueue (s : AMState) : AMState :=
  match s.audioQueue with
  | [] => s
  | h :: t =>
      if s.isPlaying then s
      else amStartPlayback h
        { s with audioQueue := t, queueStarted := s.queueStarted ++ [h] }

/-- The push step of `AudioManager.queueAudio`: push the fragment onto
`audioQueue` with index `nextIdx++`. -/
def amPush (s : AMState) : AMState :=
  { s with nextIdx := s.nextIdx + 1,
           audioQueue := s.audioQueue ++ [s.nextIdx],
           enqueued := s.enqueued ++ [s.nextIdx] }

/-- `AudioManager.queueAudio`: push the fragment; if not currently playing,
call `playNextInQueue`. -/
def amQueueAudio (s : AMState) : AMState :=
  if (amPush s).isPlaying then amPush s else amPlayNextInQueue (amPush s)

/-- `AudioManager.playAudio` called directly (the non-queue path used by
`VoiceCall.handleAudioChunk`): stop current audio, then play the new
fragment immediately; the pending queue is not consulted. -/
def amPlayDirect (s : AMState) : AMState :=
  amStartPlayback s.nextIdx
    { s with nextIdx := s.nextIdx + 1, currentAudio := none, isPlaying := false }

/-- The `onended` handler: release the current audio, clear the playing
flag, then `playNextInQueue`. -/
def amEnded (s : AMState) : AMState :=
  match s.currentAudio with
  | none => s
  | some _ => amPlayNextInQueue { s with currentAudio := none, isPlaying := false }

/-- The `onerror` handler: release the current audio and clear the playing
flag.  It does not call `playNextInQueue`. -/
def amError (s : AMState) : AMState :=
  match s.currentAudio with
  | none => s
  | some _ => { s with currentAudio := none, isPlaying := false }

/-- `AudioManager.setVolume`: `this.volume = Math.max(0, Math.min(1, v))`. -/
def amSetVolume (v : ℚ) (s : AMState) : AMState :=
  { s with volume := max 0 (min 1 v) }

/-- Events that can reach an `AudioManager`. -/
inductive AMEvent where
  | queueAudio : AMEvent
  | playDirect : AMEvent
  | ended : AMEvent
  | error : AMEvent
  | setVolume : ℚ → AMEvent
  deriving DecidableEq

def amStep (s : AMState) : AMEvent → AMState
  | AMEvent.queueAudio => amQueueAudio s
  | AMEvent.playDirect => amPlayDirect s
  | AMEvent.ended => amEnded s
  | AMEvent.error => amError s
  | AMEvent.setVolume v => amSetVolume v s

/-- A run of the `AudioManager` from its constructor state. -/
def runAM (es : List AMEvent) : AMState :=
  es.foldl amStep amInit

/-! ### JavaScript string trim

`text.trim()` removes leading and trailing whitespace.  It is modelled
directly on the character list so that runs evaluate inside the kernel. -/

def isWsChar (c : Char) : Bool :=
  c = ' ' ∨ c = '\t' ∨ c = '\n' ∨ c = '\r'

/-- JavaScript `String.prototype.trim`. -/
def jsTrim (s : String) : String :=
  ⟨((s.data.dropWhile isWsChar).reverse.dropWhile isWsChar).reverse⟩

/-! ### Outbound and inbound messages

Messages stay structured in the model; `JSON.stringify`/`JSON.parse` on the
wire boundary is treated as an injective external encoding. -/

structure OutMsg where
  mtype : String
  content : String
  deriving DecidableEq, Repr

structure InMsg where
  mtype : String
  content : String
  full_text : Option String
  deriving DecidableEq, Repr

/-! ### WebSocketClient (src/unnamed/part_002, openai/assets/js/websocket-client.js)

`wsPresent` models `this.ws !== null`, `wsOpen` models
`this.ws.readyState === WebSocket.OPEN`.  `reconnectTimeout` holds the
delay of a scheduled-but-unfired reconnect timer; `schedules` is the ghost
log of every `setTimeout(() => this.connect(), delay)` call;
`lastNotified` is the argument of the latest `notifyConnectionState`. -/

inductive ConnState where
  | connected
  | disconnected
  | reconnecting
  | error
  | failed
  deriving DecidableEq, Repr

structure WSCState where
  wsPresent : Bool
  wsOpen : Bool
  reconnectAttempts : Nat
  reconnectTimeout : Option Nat
  schedules : List Nat
  lastNotified : Option ConnState
  sent : List OutMsg
  deriving DecidableEq, Repr

/-- Fresh `WebSocketClient`: no socket, zero attempts, no pending timer. -/
def wscInit : WSCState :=
  ⟨false, false, 0, none, [], none, []⟩

/-- `WebSocketClient.attemptReconnect`: below 5 attempts, increment the
counter, notify `reconnecting` and schedule `connect` after
`2000 * reconnectAttempts` ms; at 5, notify `failed` and schedule
nothing. -/
def wscAttemptReconnect (s : WSCState) : WSCState :=
  if s.reconnectAttempts < 5 then
    let a := s.reconnectAttempts + 1
    let d := 2000 * a
    { s with reconnectAttempts := a, lastNotified := some ConnState.reconnecting,
             reconnectTimeout := some d, schedules := s.schedules ++ [d] }
  else
    { s with lastNotified := some ConnState.failed }

/-- `WebSocketClient.connect`: create a new socket (readyState
`CONNECTING`) and install the handlers. -/
def wscConnect (s : WSCState) : WSCState :=
  { s with wsPresent := true, wsOpen := false }

/-- The `onopen` handler: reset the attempt counter and notify
`connected`. -/
def wscOpen (s : WSCState) : WSCState :=
  { s with wsOpen := true, reconnectAttempts := 0,
           lastNotified := some ConnState.connected }

/-- The `onclose` handler: notify `disconnected`, then `attemptReconnect`.
It fires for every close of the underlying socket — it takes no close code
and is not removed by `disconnect`. -/
def wscClose (s : WSCState) : WSCState :=
  wscAttemptReconnect
    { s with wsOpen := false, lastNotified := some ConnState.disconnected }

/-- `WebSocketClient.disconnect`: clear a pending reconnect timer, close
the socket and drop the reference.  (The close event of the underlying
socket still fires afterwards.) -/
def wscDisconnect (s : WSCState) : WSCState :=
  { s with reconnectTimeout := none, wsPresent := false, wsOpen := false }

/-- A scheduled reconnect timer fires: run `connect`. -/
def wscTimerFire (s : WSCState) : WSCState :=
  match s.reconnectTimeout with
  | some _ => wscConnect { s with reconnectTimeout := none }
  | none => s

/-- `WebSocketClient.sendMessage`: serialize and send when the socket
exists and is open, returning `true`; otherwise log a warning and return
`false` without touching any state. -/
def wscSend (m : OutMsg) (s : WSCState) : Bool × WSCState :=
  if s.wsPresent && s.wsOpen then (true, { s with sent := s.sent ++ [m] })
  else (false, s)

inductive WSCEvent where
  | connectCall
  | openEvt
  | closeEvt
  | disconnectCall
  | timerFire
  deriving DecidableEq, Repr

def wscStep (s : WSCState) : WSCEvent → WSCState
  | WSCEvent.connectCall => wscConnect s
  | WSCEvent.openEvt => wscOpen s
  | WSCEvent.closeEvt => wscClose s
  | WSCEvent.disconnectCall => wscDisconnect s
  | WSCEvent.timerFire => wscTimerFire s

/-- A run of the `WebSocketClient` from its constructor state. -/
def runWSC (es : List WSCEvent) : WSCState :=
  es.foldl wscStep wscInit

/-! ### WebSocketManager (websocket-manager.js, streaming variant)

Reconnects only when the close code differs from `1000` and fewer than 5
attempts were made; the delay is the constant `reconnectDelay = 3000`.
`disconnect` closes the socket with code `1000`, so the close event it
triggers carries code `1000`. -/

structure WMState where
  wsPresent : Bool
  wsOpen : Bool
  isConnected : Bool
  reconnectAttempts : Nat
  schedules : List Nat
  sent : List OutMsg
  deriving DecidableEq, Repr

/-- Fresh `WebSocketManager`. -/
def wmInit : WMState :=
  ⟨false, false, false, 0, [], []⟩

/-- The `onclose` handler with close code `code`: mark disconnected, then
auto-reconnect only when the close was not clean (`code ≠ 1000`) and fewer
than `maxReconnectAttempts = 5` attempts were made, scheduling `connect`
after `reconnectDelay = 3000` ms. -/
def wmClose (code : Nat) (s : WMState) : WMState :=
  let s1 := { s with isConnected := false, wsOpen := false }
  if code ≠ 1000 ∧ s1.reconnectAttempts < 5 then
    { s1 with reconnectAttempts := s1.reconnectAttempts + 1,
              schedules := s1.schedules ++ [3000] }
  else s1

/-- `WebSocketManager.connect`. -/
def wmConnect (s : WMState) : WMState :=
  { s with wsPresent := true, wsOpen := false }

/-- The `onopen` handler. -/
def wmOpen (s : WMState) : WMState :=
  { s with wsOpen := true, isConnected := true, reconnectAttempts := 0 }

/-- `WebSocketManager.disconnect`: `this.ws.close(1000, 'User
disconnected')`, drop the reference, mark disconnected.  The close event
it triggers carries code `1000`. -/
def wmDisconnect (s : WMState) : WMState :=
  { s with wsPresent := false, wsOpen := false, isConnected := false }

/-- `WebSocketManager.sendMessage`: stringify and send inside
`try`/`catch` when the socket exists and is open, returning `true`;
otherwise log and return `false` without touching any state.  (The send
call on an open browser socket is modelled as non-throwing.) -/
def wmSend (m : OutMsg) (s : WMState) : Bool × WMState :=
  if s.wsPresent && s.wsOpen then (true, { s with sent := s.sent ++ [m] })
  else (false, s)

/-- `WebSocketManager.sendUserSpeech`: send `type: 'user_speech'` with the
trimmed text. -/
def wmSendUserSpeech (t : String) (s : WMState) : Bool × WMState :=
  wmSend ⟨"user_speech", jsTrim t⟩ s

/-- The channel of a client/manager state is usable for sending exactly
when a socket object exists and its ready state is `OPEN`. -/
def channelOpen (wsPresent wsOpen : Bool) : Prop :=
  wsPresent = true ∧ wsOpen = true

instance (p q : Bool) : Decidable (channelOpen p q) := by
  unfold channelOpen
  infer_instance

/-! ### Message handler registry (handleMessage / onMessage of part_002)

`messageHandlers` is a JavaScript `Map` from type strings to handler
closures; handlers are identified by numbers.  `Map.set` replaces the
value of an existing key in place and otherwise appends. -/

/-- `Map.set(t, h)` on the handler registry. -/
def setHandler (t : String) (h : Nat) : List (String × Nat) → List (String × Nat)
  | [] => [(t, h)]
  | (t1, h1) :: rest =>
      if t1 = t then (t, h) :: rest else (t1, h1) :: setHandler t h rest

/-- `Map.get(t)` on the handler registry. -/
def lookupHandler (t : String) : List (String × Nat) → Option Nat
  | [] => none
  | (t1, h1) :: rest => if t1 = t then some h1 else lookupHandler t rest

/-- `WebSocketClient.handleMessage`: look up the handler for `data.type`;
invoke it when found, otherwise `console.warn('Unhandled message type')`.
Returns the list of invoked handlers and whether the warning was logged. -/
def wscHandleMessage (regs : List (String × Nat)) (mtype : String) : List Nat × Bool :=
  match lookupHandler mtype regs with
  | some h => ([h], false)
  | none => ([], true)

/-! ### UIManager (src/unnamed/part_001)

The chat area is the list of message `div`s in document order; the live
transcription `div` is kept in its own slot (the code removes it by
reference or id before any finalized entry is appended).
`conversationHistory` is the internal array fed only by `addMessage`.
Wall-clock timestamps are outside the model. -/

structure ChatMsg where
  cls : String
  text : String
  idAttr : Option String
  deriving DecidableEq, Repr

structure UIState where
  chatArea : List ChatMsg
  currentAi : Option Nat
  live : Option String
  callStatus : String
  history : List (String × String)
  deriving DecidableEq, Repr

/-- Fresh `UIManager` with an empty chat area. -/
def uiInit : UIState :=
  ⟨[], none, none, "", []⟩

/-- Replace the element at position `i` of a list using `f`. -/
def listModify (i : Nat) (f : α → α) : List α → List α
  | [] => []
  | a :: rest =>
      match i with
      | 0 => f a :: rest
      | Nat.succ j => a :: listModify j f rest

/-- `UIManager.addMessage(content, sender)`: append a
`div.message.{sender}` with the content as text, scroll, and push the
entry onto `conversationHistory`. -/
def uiAddMessage (content sender : String) (s : UIState) : UIState :=
  { s with chatArea := s.chatArea ++ [⟨"message " ++ sender, content, none⟩],
           history := s.history ++ [(content, sender)] }

/-- `UIManager.addSystemMessage`. -/
def uiAddSystemMessage (content : String) (s : UIState) : UIState :=
  uiAddMessage content "system" s

/-- `UIManager.addErrorMessage`: prefixes the content with `❌ `. -/
def uiAddErrorMessage (content : String) (s : UIState) : UIState :=
  uiAddMessage ("❌ " ++ content) "error" s

/-- `UIManager.addUserMessage`: prefixes the content with `You: `. -/
def uiAddUserMessage (content : String) (s : UIState) : UIState :=
  uiAddMessage ("You: " ++ content) "user" s

/-- `UIManager.startAiResponse`: append an empty
`div.message.ai.current-response` with id `current-ai-response` and
remember it as the current AI message. -/
def uiStartAiResponse (s : UIState) : UIState :=
  { s with chatArea := s.chatArea ++
             [⟨"message ai current-response", "", some "current-ai-response"⟩],
           currentAi := some s.chatArea.length }

/-- `UIManager.updateAiResponse(fullText)`: overwrite the text of the
current AI message, if any. -/
def uiUpdateAiResponse (fullText : String) (s : UIState) : UIState :=
  match s.currentAi with
  | some i =>
      { s with chatArea := listModify i (fun m => { m with text := fullText }) s.chatArea }
  | none => s

/-- `UIManager.finishAiResponse(finalText)`: drop the `current-response`
class, set the text to `AI: ` followed by the final text, remove the id
attribute, and clear the current reference. -/
def uiFinishAiResponse (finalText : String) (s : UIState) : UIState :=
  match s.currentAi with
  | some i =>
      { s with chatArea := listModify i
                 (fun _ => ⟨"message ai", "AI: " ++ finalText, none⟩) s.chatArea,
               currentAi := none }
  | none => s

/-- `UIManager.showLiveTranscription`: remove any existing live
transcription element and create a new one for the text. -/
def uiShowLiveTranscription (text : String) (s : UIState) : UIState :=
  { s with live := some text }

/-- `UIManager.removeLiveTranscription`. -/
def uiRemoveLiveTranscription (s : UIState) : UIState :=
  { s with live := none }

/-- `UIManager.updateCallStatus`. -/
def uiUpdateCallStatus (message : String) (s : UIState) : UIState :=
  { s with callStatus := message }

/-! ### VoiceCall orchestrator (voice-call.js)

`wsOpen`/`sent` stand for its `WebSocketManager`'s socket state and sent
messages; `audio` is its `AudioManager`.  `console.log`/`console.error`
output is outside the state. -/

structure VCState where
  ui : UIState
  audio : AMState
  isConnected : Bool
  isOnCall : Bool
  wsOpen : Bool
  sent : List OutMsg
  deriving DecidableEq, Repr

/-- A `VoiceCall` on an open, connected call (the state in which speech
results arrive). -/
def vcOnCall : VCState :=
  ⟨uiInit, amInit, true, true, true, []⟩

/-- `VoiceCall.sendTranscription`: return early unless connected and the
trimmed text is non-empty; otherwise `sendUserSpeech` over the manager —
on success append the user message and update the status, on failure the
thrown error is caught and shown as an error entry. -/
def vcSendTranscription (text : String) (s : VCState) : VCState :=
  if s.isConnected = false ∨ jsTrim text = "" then s
  else
    if s.wsOpen then
      { s with sent := s.sent ++ [⟨"user_speech", jsTrim text⟩],
               ui := uiUpdateCallStatus "🤖 Waiting for AI response..."
                       (uiAddUserMessage (jsTrim text) s.ui) }
    else
      { s with ui := uiAddErrorMessage
                 "Failed to send message: Failed to send message via WebSocket" s.ui }

/-- `VoiceCall.handleSpeechResult`: remove the live transcription and send
the finalized text. -/
def vcHandleSpeechResult (text : String) (s : VCState) : VCState :=
  vcSendTranscription text { s with ui := uiRemoveLiveTranscription s.ui }

/-- `VoiceCall.handleInterimSpeechResult`: show the live transcription and
update the call status; never sends. -/
def vcHandleInterimSpeechResult (text : String) (s : VCState) : VCState :=
  { s with ui := uiUpdateCallStatus ("🎤 Speaking: \"" ++ text ++ "\"")
                   (uiShowLiveTranscription text s.ui) }

/-- `VoiceCall.handleWebSocketMessage`: the `switch` over `message.type`.
The `default` case only logs the unknown type. -/
def vcHandleWebSocketMessage (m : InMsg) (s : VCState) : VCState :=
  if m.mtype = "ai_typing" then
    { s with ui := uiUpdateCallStatus "🤖 AI is thinking..." s.ui }
  else if m.mtype = "ai_response_start" then
    { s with ui := uiStartAiResponse s.ui }
  else if m.mtype = "ai_chunk" then
    let t := match m.full_text with
             | some ft => if ft = "" then m.content else ft
             | none => m.content
    { s with ui := uiUpdateCallStatus "🔴 On Call - AI is responding..."
                     (uiUpdateAiResponse t s.ui) }
  else if m.mtype = "ai_response_complete" then
    { s with ui := uiUpdateCallStatus "🔴 On Call - Speak naturally"
                     (uiFinishAiResponse m.content s.ui) }
  else if m.mtype = "audio_chunk" then
    { s with audio := amPlayDirect s.audio }
  else if m.mtype = "ai_response" then
    { s with ui := uiUpdateCallStatus "🔴 On Call - Speak naturally"
                     (uiAddMessage ("AI: " ++ m.content) "ai" s.ui) }
  else if m.mtype = "audio_response" then
    { s with audio := amPlayDirect s.audio }
  else if m.mtype = "system" then
    { s with ui := uiAddSystemMessage m.content s.ui }
  else if m.mtype = "error" then
    { s with ui := uiAddErrorMessage m.content s.ui }
  else s

/-! ### SpeechRecognitionManager.onresult (src/unnamed/part_000)

One `result` event carries the list of (transcript, isFinal) recognition
results from `event.resultIndex` on.  The handler concatenates non-final
transcripts into `interimTranscript` and final ones (each followed by a
space) into `finalTranscript`, then fires `onInterimResult` with the
trimmed interim text when non-empty and `onResult` with the trimmed final
text when non-empty — wired by `VoiceCall` to the two handlers above. -/

def srOnResult (results : List (String × Bool)) (s : VCState) : VCState :=
  let interim := (results.filter (fun r => r.2 = false)).foldl
                   (fun acc r => acc ++ r.1) ""
  let finalT := (results.filter (fun r => r.2 = true)).foldl
                  (fun acc r => acc ++ r.1 ++ " ") ""
  let s1 := if jsTrim interim ≠ "" then vcHandleInterimSpeechResult (jsTrim interim) s else s
  if jsTrim finalT ≠ "" then vcHandleSpeechResult (jsTrim finalT) s1 else s1

/-- The run of `startAiResponse`, three cumulative updates and the final
`finishAiResponse("ABC")` on a fresh view. -/
def c8Run : UIState :=
  uiFinishAiResponse "ABC"
    (uiUpdateAiResponse "ABC"
      (uiUpdateAiResponse "AB"
        (uiUpdateAiResponse "A"
          (uiStartAiResponse uiInit))))

end VoiceDemo

namespace VoiceDemo

/-! ## Generic trace helpers -/

theorem foldl_invariant {σ α : Type} (f : σ → α → σ) (P : σ → Prop)
    (hstep : ∀ s a, P s → P (f s a)) :
    ∀ (l : List α) (s : σ), P s → P (l.foldl f s)
  | [], _, hs => hs
  | a :: l, s, hs => foldl_invariant f P hstep l (f s a) (hstep s a hs)

theorem foldl_replicate_invariant {σ α : Type} (f : σ → α → σ) (a : α) (P : σ → Prop)
    (hstep : ∀ s, P s → P (f s a)) :
    ∀ (n : Nat) (s : σ), P s → P ((List.replicate n a).foldl f s)
  | 0, _, hs => hs
  | n + 1, s, hs => by
      rw [List.replicate_succ, List.foldl_cons]
      exact foldl_replicate_invariant f a P hstep n (f s a) (hstep s hs)

/-! ## Queue-order invariants

`apOrder`/`amOrder` state that the fragments pushed into a playback queue
are exactly the fragments already started (in start order) followed by the
still-pending ones (in queue order): start order equals enqueue order. -/

def apOrder (s : APState) : Prop :=
  s.enqueued = s.started ++ s.audioQueue

def amOrder (s : AMState) : Prop :=
  s.enqueued = s.queueStarted ++ s.audioQueue

theorem apPlayNextChunk_order {s : APState} (h : apOrder s) :
    apOrder (apPlayNextChunk s) := by
  unfold apOrder at h ⊢
  cases hq : s.audioQueue with
  | nil => simp [apPlayNextChunk, hq]; simpa [hq] using h
  | cons a t =>
      by_cases hm : s.isMuted
      · simp [apPlayNextChunk, hq, hm]; simpa [hq] using h
      · simp [apPlayNextChunk, hq, hm]
        rw [hq] at h
        simpa using h

theorem apPushChunk_order {s : APState} (h : apOrder s) :
    apOrder (apPushChunk s) := by
  unfold apOrder apPushChunk at *
  simp [h]

theorem apPlayAudioChunk_order {s : APState} (h : apOrder s) :
    apOrder (apPlayAudioChunk s) := by
  unfold apPlayAudioChunk
  split
  · exact h
  · split
    · exact apPlayNextChunk_order (apPushChunk_order h)
    · exact apPushChunk_order h

theorem apStep_order (s : APState) (e : APEvent) (h : apOrder s) :
    apOrder (apStep s e) := by
  cases e with
  | enqueue => exact apPlayAudioChunk_order h
  | ended i =>
      show apOrder (apEnded i s)
      unfold apEnded
      split
      · split
        · simpa [apOrder, apRelease] using h
        · simpa [apOrder, apRelease] using h
      · exact h
  | error i =>
      show apOrder (apError i s)
      unfold apError
      split
      · split
        · exact apPlayNextChunk_order (by simpa [apOrder, apRelease] using h)
        · simpa [apOrder, apRelease] using h
      · exact h
  | timerFire =>
      show apOrder (apTimerFire s)
      unfold apTimerFire
      split
      · exact apPlayNextChunk_order (by simpa [apOrder] using h)
      · exact h
  | finalize =>
      show apOrder (apFinalize s)
      simpa [apFinalize, apOrder] using h
  | toggleMute =>
      show apOrder (apToggleMute s)
      simpa [apToggleMute, apOrder] using h

theorem amStartPlayback_order {s : AMState} (i : Nat) (h : amOrder s) :
    amOrder (amStartPlayback i s) := by
  simpa [amOrder, amStartPlayback] using h

theorem amPush_order {s : AMState} (h : amOrder s) :
    amOrder (amPush s) := by
  unfold amOrder amPush at *
  simp [h]

theorem amPlayNextInQueue_order {s : AMState} (h : amOrder s) :
    amOrder (amPlayNextInQueue s) := by
  unfold amOrder at h ⊢
  cases hq : s.audioQueue with
  | nil => simp [amPlayNextInQueue, hq]; simpa [hq] using h
  | cons a t =>
      by_cases hp : s.isPlaying
      · simp [amPlayNextInQueue, hq, hp]; simpa [hq] using h
      · simp [amPlayNextInQueue, hq, hp, amStartPlayback]
        rw [hq] at h
        simpa using h

theorem amStep_order (s : AMState) (e : AMEvent) (h : amOrder s) :
    amOrder (amStep s e) := by
  cases e with
  | queueAudio =>
      show amOrder (amQueueAudio s)
      unfold amQueueAudio
      split
      · exact amPush_order h
      · exact amPlayNextInQueue_order (amPush_order h)
  | playDirect =>
      show amOrder (amPlayDirect s)
      unfold amPlayDirect
      exact amStartPlayback_order _ (by simpa [amOrder] using h)
  | ended =>
      show amOrder (amEnded s)
      unfold amEnded
      split
      · exact h
      · exact amPlayNextInQueue_order (by simpa [amOrder] using h)
  | error =>
      show amOrder (amError s)
      unfold amError
      split
      · exact h
      · simpa [amOrder] using h
  | setVolume v =>
      show amOrder (amSetVolume v s)
      simpa [amSetVolume, amOrder] using h

/-- Claim C1.  For every sequence of audio fragments enqueued into either
playback queue (`AudioPlayer.playAudioChunk` or
`AudioManager.queueAudio`), and every interleaving of arrivals with
`ended`/`error` callbacks and inter-fragment timers, the enqueue log
equals the play-start log followed by the pending queue: fragments begin
playing exactly in the order they were enqueued, no matter how quickly
later fragments arrive or decode. -/
theorem c1_playback_start_order :
    (∀ es : List APEvent,
        (runAP es).enqueued = (runAP es).started ++ (runAP es).audioQueue)
    ∧ (∀ fs : List AMEvent,
        (runAM fs).enqueued = (runAM fs).queueStarted ++ (runAM fs).audioQueue) := by
  constructor
  · intro es
    exact foldl_invariant apStep apOrder apStep_order es apStreamingInit rfl
  · intro fs
    exact foldl_invariant amStep amOrder amStep_order fs amInit rfl

/-- Claim C2.  Evaluation of `AudioPlayer` at the failing input: after
`initializeStreamingAudio()` and two `playAudioChunk` calls with the
second chunk arriving before the first one ends, both chunks are in the
`playing` state at once.  `playNextChunk` shifts the playing chunk off
`audioQueue`, so the `audioQueue.length === 1` test in `playAudioChunk`
also fires for a chunk pushed while another chunk is still playing, and
the new chunk is started immediately — the at-most-one-playing invariant
is violated by the code. -/
theorem c2_two_chunks_playing_at_once :
    (runAP [APEvent.enqueue, APEvent.enqueue]).playing = [0, 1]
    ∧ ((runAP [APEvent.enqueue, APEvent.enqueue]).playing).length = 2 := by
  constructor
  · rfl
  · rfl

/-- The volume invariant of the `AudioManager`: the stored volume is
within `[0, 1]` and every fragment was started with a volume within
`[0, 1]`. -/
def amVolumeOk (s : AMState) : Prop :=
  0 ≤ s.volume ∧ s.volume ≤ 1
    ∧ s.startedVolumes.all (fun q => decide (0 ≤ q) && decide (q ≤ 1)) = true

theorem amStartPlayback_volume {s : AMState} (i : Nat) (h : amVolumeOk s) :
    amVolumeOk (amStartPlayback i s) := by
  obtain ⟨h0, h1, hall⟩ := h
  refine ⟨h0, h1, ?_⟩
  simp [amStartPlayback, List.all_append, hall, h0, h1]

theorem amPlayNextInQueue_volume {s : AMState} (h : amVolumeOk s) :
    amVolumeOk (amPlayNextInQueue s) := by
  cases hq : s.audioQueue with
  | nil => simpa [amPlayNextInQueue, hq] using h
  | cons a t =>
      by_cases hp : s.isPlaying
      · simpa [amPlayNextInQueue, hq, hp] using h
      · simp only [amPlayNextInQueue, hq, hp]
        exact amStartPlayback_volume _ (by
          obtain ⟨h0, h1, hall⟩ := h
          exact ⟨h0, h1, by simpa using hall⟩)

theorem amStep_volume (s : AMState) (e : AMEvent) (h : amVolumeOk s) :
    amVolumeOk (amStep s e) := by
  cases e with
  | queueAudio =>
      show amVolumeOk (amQueueAudio s)
      have hp : amVolumeOk (amPush s) := by
        obtain ⟨h0, h1, hall⟩ := h
        exact ⟨h0, h1, by simpa [amPush] using hall⟩
      unfold amQueueAudio
      split
      · exact hp
      · exact amPlayNextInQueue_volume hp
  | playDirect =>
      show amVolumeOk (amPlayDirect s)
      unfold amPlayDirect
      exact amStartPlayback_volume _ (by
        obtain ⟨h0, h1, hall⟩ := h
        exact ⟨h0, h1, by simpa using hall⟩)
  | ended =>
      show amVolumeOk (amEnded s)
      unfold amEnded
      split
      · exact h
      · exact amPlayNextInQueue_volume (by
          obtain ⟨h0, h1, hall⟩ := h
          exact ⟨h0, h1, by simpa using hall⟩)
  | error =>
      show amVolumeOk (amError s)
      unfold amError
      split
      · exact h
      · obtain ⟨h0, h1, hall⟩ := h
        exact ⟨h0, h1, by simpa using hall⟩
  | setVolume v =>
      show amVolumeOk (amSetVolume v s)
      obtain ⟨_, _, hall⟩ := h
      refine ⟨le_max_left 0 _, ?_, by simpa [amSetVolume] using hall⟩
      simp [amSetVolume]

/-- Claim C10.  `AudioManager.setVolume` clamps every input to `[0, 1]`,
and along every event trace the stored volume stays in `[0, 1]` and every
fragment is started at a volume in `[0, 1]`. -/
theorem c10_volume_clamped :
    (∀ (v : ℚ) (s : AMState),
        0 ≤ (amSetVolume v s).volume ∧ (amSetVolume v s).volume ≤ 1)
    ∧ (∀ es : List AMEvent,
        0 ≤ (runAM es).volume ∧ (runAM es).volume ≤ 1
        ∧ ((runAM es).startedVolumes).all
            (fun q => decide (0 ≤ q) && decide (q ≤ 1)) = true) := by
  constructor
  · intro v s
    constructor
    · exact le_max_left 0 _
    · simp [amSetVolume]
  · intro es
    exact foldl_invariant amStep amVolumeOk amStep_volume es amInit
      ⟨by norm_num [amInit], by norm_num [amInit], rfl⟩

/-! ## Transport: linear backoff and clean-close behaviour -/

/-- The five reconnect delays scheduled by `WebSocketClient`. -/
def backoffDelays : List Nat :=
  [2000, 4000, 6000, 8000, 10000]

theorem wscClose_at_max {s : WSCState} (h : s.reconnectAttempts = 5) :
    (wscStep s WSCEvent.closeEvt).reconnectAttempts = 5
    ∧ (wscStep s WSCEvent.closeEvt).schedules = s.schedules
    ∧ (wscStep s WSCEvent.closeEvt).lastNotified = some ConnState.failed := by
  simp [wscStep, wscClose, wscAttemptReconnect, h]

theorem runWSC_split (l1 l2 : List WSCEvent) :
    runWSC (l1 ++ l2) = l2.foldl wscStep (runWSC l1) := by
  simp [runWSC, List.foldl_append]

theorem runWSC_five_closes :
    runWSC (List.replicate 5 WSCEvent.closeEvt) =
      ⟨false, false, 5, some 10000, backoffDelays, some ConnState.reconnecting, []⟩ := by
  decide

/-- Claim C3.  Starting from a fresh `WebSocketClient`, a run of 5 or more
consecutive abnormal closures schedules exactly the five reconnect
attempts with delays `1×2000, …, 5×2000` and never a sixth; once the
fifth scheduled attempt has also failed (the sixth closure), the last
notified connection state is the terminal `failed`. -/
theorem c3_linear_backoff_five_attempts :
    ((List.range 5).map (fun k => 2000 * (k + 1)) = backoffDelays)
    ∧ (∀ n : Nat,
        (runWSC (List.replicate (5 + n) WSCEvent.closeEvt)).schedules = backoffDelays)
    ∧ (∀ n : Nat,
        (runWSC (List.replicate (6 + n) WSCEvent.closeEvt)).lastNotified =
          some ConnState.failed) := by
  refine ⟨by decide, ?_, ?_⟩
  · intro n
    rw [List.replicate_add, runWSC_split, runWSC_five_closes]
    have inv : ∀ s : WSCState,
        (s.reconnectAttempts = 5 ∧ s.schedules = backoffDelays) →
        ((wscStep s WSCEvent.closeEvt).reconnectAttempts = 5
          ∧ (wscStep s WSCEvent.closeEvt).schedules = backoffDelays) := by
      intro s hs
      obtain ⟨h5, hsch⟩ := hs
      obtain ⟨ha, hb, _⟩ := wscClose_at_max h5
      exact ⟨ha, by rw [hb, hsch]⟩
    exact (foldl_replicate_invariant wscStep WSCEvent.closeEvt _ inv n _ ⟨rfl, rfl⟩).2
  · intro n
    have h6 : 6 + n = 5 + (n + 1) := by omega
    rw [h6, List.replicate_add, runWSC_split, runWSC_five_closes,
      List.replicate_succ, List.foldl_cons]
    have inv : ∀ s : WSCState,
        (s.reconnectAttempts = 5 ∧ s.lastNotified = some ConnState.failed) →
        ((wscStep s WSCEvent.closeEvt).reconnectAttempts = 5
          ∧ (wscStep s WSCEvent.closeEvt).lastNotified = some ConnState.failed) := by
      intro s hs
      obtain ⟨ha, _, hc⟩ := wscClose_at_max hs.1
      exact ⟨ha, hc⟩
    refine (foldl_replicate_invariant wscStep WSCEvent.closeEvt _ inv n _ ?_).2
    exact ⟨(wscClose_at_max rfl).1, (wscClose_at_max rfl).2.2⟩

/-- Claim C4, counterexample.  In `WebSocketClient`, an explicit
`disconnect()` (which clears any pending reconnect timer) followed by the
close event of the closed socket does schedule a reconnect: before the
close event no reconnect was ever scheduled, after it one reconnect with
delay 2000 ms is scheduled, because `onclose` calls `attemptReconnect`
unconditionally. -/
theorem c4_reconnect_scheduled_after_disconnect :
    (runWSC [WSCEvent.connectCall, WSCEvent.openEvt,
        WSCEvent.disconnectCall]).schedules = []
    ∧ (runWSC [WSCEvent.connectCall, WSCEvent.openEvt,
        WSCEvent.disconnectCall, WSCEvent.closeEvt]).schedules = [2000]
    ∧ (runWSC [WSCEvent.connectCall, WSCEvent.openEvt,
        WSCEvent.disconnectCall, WSCEvent.closeEvt]).reconnectTimeout = some 2000 := by
  exact ⟨rfl, rfl, rfl⟩

/-- Claim C4, amended.  In the streaming `WebSocketManager`, whose
`disconnect()` closes the socket with clean code 1000, a close event with
code 1000 never schedules a reconnect; in `WebSocketClient` every close
event below the attempt limit schedules a reconnect — also the one
following an explicit `disconnect()`, since its `onclose` handler calls
`attemptReconnect` unconditionally and `disconnect` only cancels an
already-pending timer. -/
theorem c4_clean_close_suppression :
    (∀ s : WMState, (wmClose 1000 s).schedules = s.schedules)
    ∧ (∀ s : WSCState, s.reconnectAttempts < 5 →
        (wscStep s WSCEvent.closeEvt).schedules =
          s.schedules ++ [2000 * (s.reconnectAttempts + 1)]) := by
  constructor
  · intro s
    simp [wmClose]
  · intro s hs
    show (wscClose s).schedules = _
    simp [wscClose, wscAttemptReconnect, hs]

/-- Witness for C4's amended theorem at concrete states: a clean close on
a fresh manager schedules nothing, while a `WebSocketClient` close on a
fresh client (attempt count 0 < 5) schedules a 2000 ms reconnect. -/
theorem c4_clean_close_suppression_witness :
    (wmClose 1000 wmInit).schedules = wmInit.schedules
    ∧ (wscStep wscInit WSCEvent.closeEvt).schedules =
        wscInit.schedules ++ [2000 * (wscInit.reconnectAttempts + 1)] :=
  ⟨c4_clean_close_suppression.1 wmInit,
   c4_clean_close_suppression.2 wscInit (by decide)⟩

/-- Claim C6.  `sendMessage` returns a success flag: `true` exactly when
the channel exists and is in the open state, in which case the message is
serialized and appended to the transmit log; when the channel is absent or
not open it returns `false` without throwing and leaves the whole state
unchanged.  This holds for `WebSocketClient.sendMessage` and
`WebSocketManager.sendMessage` alike. -/
theorem c6_send_success_flag :
    (∀ (s : WSCState) (m : OutMsg),
        ((wscSend m s).1 = true ↔ channelOpen s.wsPresent s.wsOpen)
        ∧ ((wscSend m s).1 = true → (wscSend m s).2.sent = s.sent ++ [m])
        ∧ ((wscSend m s).1 = false → (wscSend m s).2 = s))
    ∧ (∀ (s : WMState) (m : OutMsg),
        ((wmSend m s).1 = true ↔ channelOpen s.wsPresent s.wsOpen)
        ∧ ((wmSend m s).1 = true → (wmSend m s).2.sent = s.sent ++ [m])
        ∧ ((wmSend m s).1 = false → (wmSend m s).2 = s)) := by
  constructor
  · intro s m
    unfold wscSend channelOpen
    rcases hp : s.wsPresent <;> rcases ho : s.wsOpen <;> simp
  · intro s m
    unfold wmSend channelOpen
    rcases hp : s.wsPresent <;> rcases ho : s.wsOpen <;> simp

/-- Witness for C6 at concrete states: sending on an open client appends
to the transmit log, sending on a fresh (absent-channel) client returns
the state unchanged. -/
theorem c6_send_success_flag_witness :
    (wscSend ⟨"ping", ""⟩ (⟨true, true, 0, none, [], none, []⟩ : WSCState)).2.sent =
        ([] : List OutMsg) ++ [⟨"ping", ""⟩]
    ∧ (wscSend ⟨"ping", ""⟩ wscInit).2 = wscInit
    ∧ (wmSend ⟨"ping", ""⟩ wmInit).2 = wmInit :=
  ⟨(c6_send_success_flag.1 ⟨true, true, 0, none, [], none, []⟩ ⟨"ping", ""⟩).2.1 (by decide),
   (c6_send_success_flag.1 wscInit ⟨"ping", ""⟩).2.2 (by decide),
   (c6_send_success_flag.2 wmInit ⟨"ping", ""⟩).2.2 (by decide)⟩

/-! ## Queue resilience on playback errors -/

/-- Claim C5, counterexample.  In the `AudioManager`, after enqueueing two
fragments and a playback error on the first, the second fragment has not
started: `started` still holds only fragment 0, fragment 1 stays in the
pending queue, nothing is playing and no current audio exists — the
`onerror` handler does not call `playNextInQueue`, so the queue stalls
instead of advancing to the next pending fragment. -/
theorem c5_queue_stalls_after_error :
    (runAM [AMEvent.queueAudio, AMEvent.queueAudio, AMEvent.error]).started = [0]
    ∧ (runAM [AMEvent.queueAudio, AMEvent.queueAudio, AMEvent.error]).audioQueue = [1]
    ∧ (runAM [AMEvent.queueAudio, AMEvent.queueAudio, AMEvent.error]).isPlaying = false
    ∧ (runAM [AMEvent.queueAudio, AMEvent.queueAudio, AMEvent.error]).currentAudio = none := by
  exact ⟨rfl, rfl, rfl, rfl⟩

/-- Claim C5, amended.  In `AudioPlayer`, a playback error on a playing
chunk releases exactly that chunk and immediately starts the next pending
chunk when one exists (so later fragments proceed in order).  In
`AudioManager`, a playback error starts nothing and leaves the pending
queue untouched, so already-queued fragments start only when a further
`queueAudio` call arrives; that call then resumes the queue with the next
pending fragment, in order. -/
theorem c5_error_skip_and_advance :
    (∀ (s : APState) (i : Nat), i ∈ s.playing → s.isMuted = false →
        (apError i s).started = s.started ++ s.audioQueue.take 1
        ∧ (apError i s).audioQueue = s.audioQueue.drop 1
        ∧ (apError i s).playing = s.playing.erase i ++ s.audioQueue.take 1)
    ∧ (∀ s : AMState,
        (amError s).started = s.started ∧ (amError s).audioQueue = s.audioQueue)
    ∧ (∀ (s : AMState) (a : Nat) (t : List Nat),
        s.isPlaying = false → s.audioQueue = a :: t →
        (amQueueAudio s).started = s.started ++ [a]
        ∧ (amQueueAudio s).queueStarted = s.queueStarted ++ [a]
        ∧ (amQueueAudio s).isPlaying = true) := by
  refine ⟨?_, ?_, ?_⟩
  · intro s i hi hm
    unfold apError
    rw [if_pos hi]
    cases hq : s.audioQueue with
    | nil =>
        split
        · simp [apPlayNextChunk, apRelease, hq]
        · simp [apRelease, hq]
    | cons a t =>
        split
        · simp [apPlayNextChunk, apRelease, hq, hm]
        · simp [apRelease, hq] at *
  · intro s
    unfold amError
    split
    · exact ⟨rfl, rfl⟩
    · exact ⟨rfl, rfl⟩
  · intro s a t hp hq
    unfold amQueueAudio
    have hpush : (amPush s).isPlaying = false := by simpa [amPush] using hp
    rw [if_neg (by simp [hpush])]
    simp [amPlayNextInQueue, amPush, hq, hp, amStartPlayback]

/-- Witness for C5's amended theorem at concrete states: an error on the
playing chunk 0 of an `AudioPlayer` with chunk 1 pending starts chunk 1,
and a `queueAudio` call on a stalled `AudioManager` with fragment 5
pending starts fragment 5. -/
theorem c5_error_skip_and_advance_witness :
    (apError 0 (⟨false, true, 2, [1], [0], 0, [0, 1], [0]⟩ : APState)).started = [0, 1]
    ∧ (amQueueAudio (⟨none, [5], false, 1, 6, [5], [], [], []⟩ : AMState)).started = [5] :=
  ⟨(c5_error_skip_and_advance.1 ⟨false, true, 2, [1], [0], 0, [0, 1], [0]⟩ 0
      (by decide) rfl).1,
   (c5_error_skip_and_advance.2.2 ⟨none, [5], false, 1, 6, [5], [], [], []⟩ 5 []
      rfl rfl).1⟩

/-! ## Message dispatch -/

theorem lookupHandler_setHandler_self (t : String) (h : Nat) :
    ∀ regs, lookupHandler t (setHandler t h regs) = some h
  | [] => by simp [setHandler, lookupHandler]
  | (t1, h1) :: rest => by
      by_cases ht : t1 = t
      · simp [setHandler, lookupHandler, ht]
      · simp [setHandler, lookupHandler, ht,
          lookupHandler_setHandler_self t h rest]

theorem lookupHandler_setHandler_other (t tq : String) (h : Nat) (hne : tq ≠ t) :
    ∀ regs, lookupHandler tq (setHandler t h regs) = lookupHandler tq regs
  | [] => by simp [setHandler, lookupHandler, Ne.symm hne]
  | (t1, h1) :: rest => by
      by_cases ht : t1 = t
      · simp [setHandler, lookupHandler, ht, Ne.symm hne]
      · simp [setHandler, lookupHandler, ht,
          lookupHandler_setHandler_other t tq h hne rest]

/-- Claim C7.  Message-type dispatch: registering a handler for a type
makes it the unique handler for that type (last registration wins) and
leaves every other type's handler unchanged; dispatching a message whose
type has no registered handler invokes no handler and only logs a
warning, while a message with a known type is dispatched to exactly its
one handler; and the orchestrator's `switch` sends an unknown type such
as `frobnicate` to the `default` case, which changes nothing — no error
entry, no handler, only a console log. -/
theorem c7_unknown_type_tolerance :
    (∀ (regs : List (String × Nat)) (t : String) (h : Nat),
        lookupHandler t (setHandler t h regs) = some h)
    ∧ (∀ (regs : List (String × Nat)) (t tq : String) (h : Nat), tq ≠ t →
        lookupHandler tq (setHandler t h regs) = lookupHandler tq regs)
    ∧ (∀ (regs : List (String × Nat)) (mt : String),
        lookupHandler mt regs = none → wscHandleMessage regs mt = ([], true))
    ∧ (∀ (regs : List (String × Nat)) (mt : String) (h : Nat),
        lookupHandler mt regs = some h → wscHandleMessage regs mt = ([h], false))
    ∧ (∀ (s : VCState) (c : String) (ft : Option String),
        vcHandleWebSocketMessage ⟨"frobnicate", c, ft⟩ s = s) := by
  refine ⟨?_, ?_, ?_, ?_, ?_⟩
  · intro regs t h
    exact lookupHandler_setHandler_self t h regs
  · intro regs t tq h hne
    exact lookupHandler_setHandler_other t tq h hne regs
  · intro regs mt hnone
    simp [wscHandleMessage, hnone]
  · intro regs mt h hsome
    simp [wscHandleMessage, hsome]
  · intro s c ft
    rfl

/-- Witness for C7 at a concrete registry (the handler table of
`app.js`): re-registering `error` replaces the old handler, dispatching
the unknown type `frobnicate` invokes nothing and logs, and dispatching
the known type `audio` invokes exactly its handler. -/
theorem c7_unknown_type_tolerance_witness :
    lookupHandler "error"
        (setHandler "error" 9
          [("message", 0), ("voice_chunk", 1), ("audio", 2), ("error", 3),
           ("info", 4), ("keepalive", 5), ("pong", 6)]) = some 9
    ∧ wscHandleMessage
        [("message", 0), ("voice_chunk", 1), ("audio", 2), ("error", 3),
         ("info", 4), ("keepalive", 5), ("pong", 6)] "frobnicate" = ([], true)
    ∧ wscHandleMessage
        [("message", 0), ("voice_chunk", 1), ("audio", 2), ("error", 3),
         ("info", 4), ("keepalive", 5), ("pong", 6)] "audio" = ([2], false) :=
  ⟨c7_unknown_type_tolerance.1 _ "error" 9,
   c7_unknown_type_tolerance.2.2.1 _ "frobnicate" (by decide),
   c7_unknown_type_tolerance.2.2.2.1 _ "audio" 2 (by decide)⟩

/-! ## Streamed assistant entry and transcript accumulation -/

/-- Claim C8, counterexample.  The run `startAiResponse`,
`updateAiResponse "A"`, `updateAiResponse "AB"`, `updateAiResponse "ABC"`,
`finishAiResponse "ABC"` produces exactly one conversation entry, but its
final content is `AI: ABC`, not `ABC`: `finishAiResponse` writes the
final text with an `AI: ` display prefix. -/
theorem c8_final_content_not_bare :
    c8Run.chatArea.map ChatMsg.text = ["AI: ABC"]
    ∧ c8Run.chatArea.map ChatMsg.text ≠ ["ABC"] := by
  exact ⟨rfl, by decide⟩

/-- Claim C8, amended.  The run `startAiResponse`, three cumulative
updates `A`, `AB`, `ABC`, then `finishAiResponse "ABC"` yields exactly
one conversation entry — not four — whose final content is `AI: ABC`
(final text with the view's `AI: ` prefix), with the `current-response`
tag removed and the current streamed-entry reference cleared. -/
theorem c8_streamed_entry_identity :
    c8Run.chatArea = [⟨"message ai", "AI: ABC", none⟩]
    ∧ c8Run.chatArea.length = 1
    ∧ c8Run.currentAi = none := by
  exact ⟨rfl, rfl, rfl⟩

/-- Claim C9.  With interim recognition results `hel` and `hello` followed
by the final result `hello world` arriving at an on-call, connected
`VoiceCall`, exactly one outbound message is sent: `user_speech` with
content `hello world`.  Interim results never send: for every state and
text, the interim handler leaves the transmit log unchanged. -/
theorem c9_single_user_speech_send :
    ((srOnResult [("hello world", true)]
        (srOnResult [("hello", false)]
          (srOnResult [("hel", false)] vcOnCall))).sent =
      [⟨"user_speech", "hello world"⟩])
    ∧ (∀ (s : VCState) (t : String),
        (vcHandleInterimSpeechResult t s).sent = s.sent) := by
  constructor
  · decide
  · intro s t
    rfl

end VoiceDemo
